import Mathlib

/-!
Verification of the AMC Intelligence Hub ingestion/analysis/digest pipeline.

The repository has two variants of the pipeline:
* `app.py` — the Streamlit UI variant ("app" definitions below);
* `gcp/main.py` — the Cloud Function variant ("gcp" definitions below).

Both are shallowly embedded here.  External effects are made explicit:
* the Firestore collection `news_articles` is a `Store`, an association list
  from document id to stored document, written by `upsert_news`;
* timestamps (`datetime.datetime` values in naive UTC) are integers counting
  seconds; `utcnow()` becomes an explicit `now : Int` argument;
* a Gemini call for one item is an `Except String Analysis` outcome attached
  to the fetched item (the loop sees either a parsed `Analysis` or the raised
  exception's message, exactly as the Python `try`/`except` does);
* feedparser entries become `Entry` records with optional fields, and Python's
  falsy-`or` chaining on possibly-missing strings is modelled by `orDefault`.
-/

namespace AMCHub

/-- Fixed department enumeration (`DEPARTMENTS`, app.py lines 99-105 and
gcp/main.py lines 14-20; both lists are identical). -/
def DEPARTMENTS : List String :=
  [ "Finanzas y ROI",
    "FoodTech and Supply Chain",
    "Innovación y Tendencias",
    "Tecnología e Innovación",
    "Legal & Regulatory Affairs / Innovation" ]

/-- `GEMINI_MODEL` (app.py line 97 hardcodes it; gcp/main.py line 9 reads the
environment with the same default). -/
def GEMINI_MODEL : String := "gemini-3-flash-preview"

/-- `MIN_SCORE = int(os.getenv("MIN_SCORE", "70"))` (gcp/main.py line 10),
modelled at its default. -/
def MIN_SCORE : Int := 70

/-- `MAX_TOTAL = int(os.getenv("MAX_TOTAL", "30"))` (gcp/main.py line 12),
modelled at its default. -/
def MAX_TOTAL : Nat := 30

/-- The validated output of `Analysis.model_validate_json` (the pydantic model
`Analysis`, app.py lines 113-119 and gcp/main.py lines 28-34). -/
structure Analysis where
  titulo_mejorado : String
  resumen : String
  accion : String
  departamento : String
  topics : List String
  score : Int
deriving Repr, DecidableEq

/-- Pydantic validation of the `Analysis` schema: the only machine-checked
numeric constraint is `score: int = Field(ge=0, le=100)`; an out-of-range
score makes `model_validate_json` raise, which the loops catch per item. -/
def mkAnalysis (titulo_mejorado resumen accion departamento : String)
    (topics : List String) (score : Int) : Except String Analysis :=
  if score < 0 then
    .error "score: Input should be greater than or equal to 0"
  else if 100 < score then
    .error "score: Input should be less than or equal to 100"
  else
    .ok ⟨titulo_mejorado, resumen, accion, departamento, topics, score⟩

/-- A candidate item produced by the fetcher
(`{"title": ..., "url": ..., "summary": ...}`). -/
structure Item where
  title : String
  url : String
  summary : String
deriving Repr, DecidableEq

/-- `sha256(url)` (app.py lines 34-35, gcp/main.py lines 36-37).  Modelled as
an ideal collision-free content address: the claims under verification only
use that it is a deterministic function of the exact URL string, so the hash
is embedded as the identity fingerprint (spec §4.2 presumes
collision-resistance; no claim quantifies over colliding inputs). -/
def sha256 (s : String) : String := s

/-- The embedded `analysis` map written by `upsert_news` (identical field set
in both variants). -/
structure AnalysisDoc where
  departamento : String
  resumen_ejecutivo : String
  accion_sugerida : String
  relevancia_score : Int
  topics : List String
  model : String
deriving Repr, DecidableEq

/-- A stored `news_articles` document.  `is_relevant` is `some b` when the
document carries the field (the app.py variant writes it) and `none` when the
writer did not include the field at all (the gcp/main.py variant). -/
structure NewsDoc where
  title : String
  url : String
  source : String
  published_at : Int
  analysis : AnalysisDoc
  is_relevant : Option Bool
deriving Repr, DecidableEq

/-- The `news_articles` collection: document id ↦ document. -/
abbrev Store := List (String × NewsDoc)

/-- `db.collection("news_articles").document(docId).get()` — first binding for
a document id wins, mirroring a keyed document store (no duplicate ids are
ever created: writes only happen after this lookup misses). -/
def lookupDoc : Store → String → Option NewsDoc
  | [], _ => none
  | (k, v) :: rest, key => if key = k then some v else lookupDoc rest key

/-- Number of stored documents whose id is `key`. -/
def countKey (store : Store) (key : String) : Nat :=
  (store.filter fun p => p.1 = key).length

/-- `analysis.departamento if analysis.departamento in DEPARTMENTS else
"Innovación y Tendencias"` (app.py line 201, gcp/main.py line 102). -/
def deptOrDefault (departamento : String) : String :=
  if departamento ∈ DEPARTMENTS then departamento else "Innovación y Tendencias"

/-- The document written by `ref.set({...})` in app.py lines 204-218:
department fallback applied, topics truncated to 4, ingestion timestamp
`utcnow()`, derived `is_relevant = score >= 60`. -/
def appNewsDoc (item : Item) (analysis : Analysis) (source_name : String)
    (now : Int) : NewsDoc :=
  { title := analysis.titulo_mejorado
    url := item.url
    source := source_name
    published_at := now
    analysis :=
      { departamento := deptOrDefault analysis.departamento
        resumen_ejecutivo := analysis.resumen
        accion_sugerida := analysis.accion
        relevancia_score := analysis.score
        topics := analysis.topics.take 4
        model := GEMINI_MODEL }
    is_relevant := some (decide (analysis.score ≥ 60)) }

/-- The document written by `ref.set({...})` in gcp/main.py lines 103-116:
identical to the app.py one except that no `is_relevant` key is written. -/
def gcpNewsDoc (item : Item) (analysis : Analysis) (source_name : String)
    (now : Int) : NewsDoc :=
  { title := analysis.titulo_mejorado
    url := item.url
    source := source_name
    published_at := now
    analysis :=
      { departamento := deptOrDefault analysis.departamento
        resumen_ejecutivo := analysis.resumen
        accion_sugerida := analysis.accion
        relevancia_score := analysis.score
        topics := analysis.topics.take 4
        model := GEMINI_MODEL }
    is_relevant := none }

/-- `upsert_news(item, analysis, source_name)` from app.py lines 192-219:
dedup by `sha256(url)`; if the document exists return `False` with the store
untouched; otherwise write `appNewsDoc` and return `True`. -/
def upsert_news (store : Store) (item : Item) (analysis : Analysis)
    (source_name : String) (now : Int) : Bool × Store :=
  match lookupDoc store (sha256 item.url) with
  | some _ => (false, store)
  | none => (true, (sha256 item.url, appNewsDoc item analysis source_name now) :: store)

/-- `upsert_news(db, item, analysis, source_name)` from gcp/main.py lines
96-117: same dedup, writes `gcpNewsDoc`. -/
def upsert_news_gcp (store : Store) (item : Item) (analysis : Analysis)
    (source_name : String) (now : Int) : Bool × Store :=
  match lookupDoc store (sha256 item.url) with
  | some _ => (false, store)
  | none => (true, (sha256 item.url, gcpNewsDoc item analysis source_name now) :: store)

lemma upsert_news_fresh {store : Store} {item : Item} (a : Analysis)
    (src : String) (now : Int) (h : lookupDoc store (sha256 item.url) = none) :
    upsert_news store item a src now =
      (true, (sha256 item.url, appNewsDoc item a src now) :: store) := by
  simp only [upsert_news, h]

lemma upsert_news_gcp_fresh {store : Store} {item : Item} (a : Analysis)
    (src : String) (now : Int) (h : lookupDoc store (sha256 item.url) = none) :
    upsert_news_gcp store item a src now =
      (true, (sha256 item.url, gcpNewsDoc item a src now) :: store) := by
  simp only [upsert_news_gcp, h]

lemma upsert_news_stale {store : Store} {item : Item} (a : Analysis)
    (src : String) (now : Int) (h : (lookupDoc store (sha256 item.url)).isSome) :
    upsert_news store item a src now = (false, store) := by
  rcases ho : lookupDoc store (sha256 item.url) with _ | d
  · rw [ho] at h; exact absurd h (by simp)
  · simp only [upsert_news, ho]

lemma upsert_news_gcp_stale {store : Store} {item : Item} (a : Analysis)
    (src : String) (now : Int) (h : (lookupDoc store (sha256 item.url)).isSome) :
    upsert_news_gcp store item a src now = (false, store) := by
  rcases ho : lookupDoc store (sha256 item.url) with _ | d
  · rw [ho] at h; exact absurd h (by simp)
  · simp only [upsert_news_gcp, ho]

lemma lookupDoc_none_countKey {store : Store} {key : String}
    (h : lookupDoc store key = none) : countKey store key = 0 := by
  induction store with
  | nil => rfl
  | cons p rest ih =>
    unfold lookupDoc at h
    by_cases hk : key = p.1
    · simp [hk] at h
    · simp only [if_neg hk] at h
      have hp : ¬ (p.1 = key) := fun he => hk he.symm
      simp only [countKey, List.filter_cons, decide_eq_true_eq]
      rw [if_neg hp]
      exact ih h

lemma countKey_cons_self (store : Store) (key : String) (d : NewsDoc) :
    countKey ((key, d) :: store) key = countKey store key + 1 := by
  simp [countKey, List.filter_cons]

/-- C1 — dedup idempotence of the upsert path.  Starting from a store that
has no document for `item`'s URL: the first call of either variant writes the
document and returns `true`; the second identical call returns `false` and
leaves the store (hence the existing document) byte-for-byte unchanged; and
the store ends up with exactly one document under the URL's content id. -/
theorem C1_upsert_dedup_idempotent (store : Store) (item : Item)
    (a : Analysis) (src : String) (now : Int)
    (h : lookupDoc store (sha256 item.url) = none) :
    ((upsert_news store item a src now).1 = true ∧
      (upsert_news (upsert_news store item a src now).2 item a src now).1 = false ∧
      (upsert_news (upsert_news store item a src now).2 item a src now).2 =
        (upsert_news store item a src now).2 ∧
      countKey (upsert_news store item a src now).2 (sha256 item.url) = 1) ∧
    ((upsert_news_gcp store item a src now).1 = true ∧
      (upsert_news_gcp (upsert_news_gcp store item a src now).2 item a src now).1 = false ∧
      (upsert_news_gcp (upsert_news_gcp store item a src now).2 item a src now).2 =
        (upsert_news_gcp store item a src now).2 ∧
      countKey (upsert_news_gcp store item a src now).2 (sha256 item.url) = 1) := by
  have hc : countKey store (sha256 item.url) = 0 := lookupDoc_none_countKey h
  constructor
  · rw [upsert_news_fresh a src now h]
    have h2 : lookupDoc ((sha256 item.url, appNewsDoc item a src now) :: store)
        (sha256 item.url) = some (appNewsDoc item a src now) := by
      simp [lookupDoc]
    refine ⟨rfl, ?_, ?_, ?_⟩
    · rw [upsert_news_stale a src now (by simp [h2])]
    · rw [upsert_news_stale a src now (by simp [h2])]
    · rw [countKey_cons_self, hc]
  · rw [upsert_news_gcp_fresh a src now h]
    have h2 : lookupDoc ((sha256 item.url, gcpNewsDoc item a src now) :: store)
        (sha256 item.url) = some (gcpNewsDoc item a src now) := by
      simp [lookupDoc]
    refine ⟨rfl, ?_, ?_, ?_⟩
    · rw [upsert_news_gcp_stale a src now (by simp [h2])]
    · rw [upsert_news_gcp_stale a src now (by simp [h2])]
    · rw [countKey_cons_self, hc]

/-- Witness for C1 at a concrete store, item and analysis. -/
theorem C1_upsert_dedup_idempotent_witness :
    lookupDoc [] (sha256 "https://example.com/a") = none ∧
    ((upsert_news [] ⟨"T", "https://example.com/a", "S"⟩
        ⟨"T2", "R", "A", "Finanzas y ROI", [], 80⟩ "Src" 0).1 = true ∧
      countKey (upsert_news [] ⟨"T", "https://example.com/a", "S"⟩
        ⟨"T2", "R", "A", "Finanzas y ROI", [], 80⟩ "Src" 0).2
        (sha256 "https://example.com/a") = 1) := by
  refine ⟨rfl, ?_, ?_⟩
  · exact ((C1_upsert_dedup_idempotent [] ⟨"T", "https://example.com/a", "S"⟩
      ⟨"T2", "R", "A", "Finanzas y ROI", [], 80⟩ "Src" 0 rfl).1).1
  · exact ((C1_upsert_dedup_idempotent [] ⟨"T", "https://example.com/a", "S"⟩
      ⟨"T2", "R", "A", "Finanzas y ROI", [], 80⟩ "Src" 0 rfl).1).2.2.2

/-- A raw feedparser entry: each of `title`, `link`, `summary`, `description`
may be absent (`e.get(...)` returns `None`). -/
structure Entry where
  title : Option String
  link : Option String
  summary : Option String
deriving Repr, DecidableEq

/-- Python's falsy-`or`: `a or b` where `a` is an optional string — `None` and
`""` both fall through to `b`. -/
def orDefault (a : Option String) (b : String) : String :=
  match a with
  | none => b
  | some s => if s = "" then b else s

/-- Python's `str.strip()`: drop leading and trailing whitespace.  (Embedded
directly over the character list so that it evaluates by kernel reduction.) -/
def stripStr (s : String) : String :=
  ⟨((s.data.dropWhile Char.isWhitespace).reverse.dropWhile Char.isWhitespace).reverse⟩

/-- Entry's `description` field is folded into `summary` here: the source only
reads it through `e.get("summary") or e.get("description") or ""`, so the
model exposes the already-merged optional text as `Entry.summary` (the merge
itself is the `orDefault` chain in `fetch_rss`). -/
def entrySummary (e : Entry) : String := stripStr (orDefault e.summary "")

/-- `fetch_rss(url, max_items)` (app.py lines 141-150, gcp/main.py lines
54-63), with the parsed entry list of the feed as input: the `[:max_items]`
cap is applied to the raw entry list FIRST, then entries whose stripped title
or link is empty are dropped. -/
def fetch_rss (entries : List Entry) (max_items : Nat) : List Item :=
  (entries.take max_items).filterMap fun e =>
    let title := stripStr (orDefault e.title "")
    let link := stripStr (orDefault e.link "")
    if title ≠ "" ∧ link ≠ "" then
      some { title := title, url := link, summary := entrySummary e }
    else
      none

/-- An entry survives `fetch_rss`'s validity check. -/
def entryValid (e : Entry) : Bool :=
  stripStr (orDefault e.title "") ≠ "" && stripStr (orDefault e.link "") ≠ ""

/-- `in_last_hours(ts, hours)` (app.py lines 41-62): `ts` is `None` or a
timestamp (tz-normalisation to naive UTC is the identity in this integer
model); included iff `0 <= now - ts <= hours * 3600` in seconds. -/
def in_last_hours (ts : Option Int) (now : Int) (hours : Int) : Bool :=
  match ts with
  | none => false
  | some t => decide (0 ≤ now - t ∧ now - t ≤ hours * 3600)

/-- The Cloud Function digest query (gcp/main.py lines 208-215):
`cutoff = utcnow() - timedelta(hours=24)` and the Firestore filter
`published_at >= cutoff`. -/
def gcpWindowIncludes (published_at now : Int) : Bool :=
  decide (now - 24 * 3600 ≤ published_at)

/-- The three-entry demonstration feed for the cap-before-filter behaviour:
entries 1 and 3 are valid, entry 2 lacks a link. -/
def demoEntries : List Entry :=
  [ ⟨some "First", some "https://example.com/1", some "s1"⟩,
    ⟨some "No link", none, some "s2"⟩,
    ⟨some "Third", some "https://example.com/3", some "s3"⟩ ]

/-- C10 — the fetcher caps before validating.  `fetch_rss` never returns more
than `max_items` items, and on the demonstration feed — which contains 2
valid entries (= `max_items`) but an invalid entry among the first 2 — it
returns only 1 item, fewer than `max_items`, because the invalid second entry
displaces the valid third one. -/
theorem C10_fetch_cap_before_filter :
    (∀ (entries : List Entry) (m : Nat), (fetch_rss entries m).length ≤ m) ∧
    (∀ (entries : List Entry) (m : Nat),
      fetch_rss entries m = fetch_rss (entries.take m) m) ∧
    ((demoEntries.filter entryValid).length = 2 ∧
      fetch_rss demoEntries 2 = [{ title := "First", url := "https://example.com/1", summary := "s1" }] ∧
      (fetch_rss demoEntries 2).length < 2) := by
  refine ⟨?_, ?_, ?_⟩
  · intro entries m
    calc (fetch_rss entries m).length
        ≤ (entries.take m).length := List.length_filterMap_le _ _
      _ ≤ m := List.length_take_le m entries
  · intro entries m
    simp [fetch_rss, List.take_take]
  · refine ⟨by decide, by decide, by decide⟩

/-- C5 — window boundaries are inclusive.  For every window length
`hours ≥ 0`: an article ingested exactly `hours` hours before `now` passes
`in_last_hours`, and any article ingested strictly earlier fails it; the
Cloud Function's 24-hour query likewise includes the article whose
`published_at` is exactly at the cutoff and excludes any strictly older one. -/
theorem C5_window_boundary_inclusive (now hours t : Int) (hh : 0 ≤ hours) :
    in_last_hours (some (now - hours * 3600)) now hours = true ∧
    (hours * 3600 < now - t → in_last_hours (some t) now hours = false) ∧
    gcpWindowIncludes (now - 24 * 3600) now = true ∧
    (24 * 3600 < now - t → gcpWindowIncludes t now = false) := by
  refine ⟨?_, ?_, ?_, ?_⟩
  · simp only [in_last_hours, decide_eq_true_eq]
    constructor <;> omega
  · intro hgt
    simp only [in_last_hours, decide_eq_false_iff_not, not_and, not_le]
    omega
  · simp only [gcpWindowIncludes, decide_eq_true_eq]
    omega
  · intro hgt
    simp only [gcpWindowIncludes, decide_eq_false_iff_not, not_le]
    omega

/-- Witness for C5 at `now = 1000000`, a 24-hour window, and an article one
second older than the window. -/
theorem C5_window_boundary_inclusive_witness :
    in_last_hours (some (1000000 - 24 * 3600)) 1000000 24 = true ∧
    in_last_hours (some (1000000 - (24 * 3600 + 1))) 1000000 24 = false := by
  refine ⟨(C5_window_boundary_inclusive 1000000 24 0 (by decide)).1, ?_⟩
  exact (C5_window_boundary_inclusive 1000000 24 (1000000 - (24 * 3600 + 1))
    (by decide)).2.1 (by decide)

/-- The digest sort key `int(x["analysis"]["relevancia_score"])`. -/
def scoreOf (n : NewsDoc) : Int := n.analysis.relevancia_score

/-- One step of a stable descending-by-score sort: `x` is placed in front of
the first element whose score is `≤` its own, so earlier-input elements win
ties.  Together with `sortByScoreDesc` this is the unique stable sort, hence
the embedding of Python's Timsort call
`dept_news.sort(key=..., reverse=True)` (app.py line 446, gcp/main.py 225). -/
def insertByScoreDesc (x : NewsDoc) : List NewsDoc → List NewsDoc
  | [] => [x]
  | y :: ys => if scoreOf y ≤ scoreOf x then x :: y :: ys else y :: insertByScoreDesc x ys

/-- Stable insertion sort, descending by score (see `insertByScoreDesc`). -/
def sortByScoreDesc : List NewsDoc → List NewsDoc
  | [] => []
  | x :: xs => insertByScoreDesc x (sortByScoreDesc xs)

/-- The digest department/score filter (app.py lines 441-445, gcp/main.py
lines 220-224): keep articles of the target department with score at least
the minimum. -/
def digestFilter (dept : String) (minScore : Int) (news : List NewsDoc) : List NewsDoc :=
  news.filter fun n => decide (n.analysis.departamento = dept ∧ minScore ≤ scoreOf n)

/-- Digest composition applied to the window-filtered article list (app.py
lines 440-447, gcp/main.py lines 219-226): filter by department and minimum
score, stable-sort descending by score, truncate to the first 10. -/
def generateDigest (dept : String) (minScore : Int) (news : List NewsDoc) : List NewsDoc :=
  (sortByScoreDesc (digestFilter dept minScore news)).take 10

/-- What `save_digest` persists for each article of a digest:
`{"title": i.get("title"), "url": i.get("url")}` in list order
(app.py line 285, gcp/main.py line 160). -/
def digestItems (items : List NewsDoc) : List (String × String) :=
  items.map fun n => (n.title, n.url)

lemma mem_insertByScoreDesc {b x : NewsDoc} {l : List NewsDoc} :
    b ∈ insertByScoreDesc x l ↔ b = x ∨ b ∈ l := by
  induction l with
  | nil => simp [insertByScoreDesc]
  | cons y ys ih =>
    unfold insertByScoreDesc
    by_cases h : scoreOf y ≤ scoreOf x
    · simp [h]
    · simp only [if_neg h, List.mem_cons, ih]
      tauto

lemma sorted_insertByScoreDesc (x : NewsDoc) {l : List NewsDoc}
    (hl : l.Pairwise fun a b => scoreOf b ≤ scoreOf a) :
    (insertByScoreDesc x l).Pairwise fun a b => scoreOf b ≤ scoreOf a := by
  induction l with
  | nil => simp [insertByScoreDesc]
  | cons y ys ih =>
    rcases List.pairwise_cons.mp hl with ⟨hy, hys⟩
    unfold insertByScoreDesc
    by_cases h : scoreOf y ≤ scoreOf x
    · rw [if_pos h]
      refine List.pairwise_cons.mpr ⟨?_, hl⟩
      intro b hb
      rcases List.mem_cons.mp hb with hb | hb
      · exact hb ▸ h
      · exact le_trans (hy b hb) h
    · rw [if_neg h]
      refine List.pairwise_cons.mpr ⟨?_, ih hys⟩
      intro b hb
      rcases mem_insertByScoreDesc.mp hb with hb | hb
      · exact hb ▸ le_of_lt (lt_of_not_le h)
      · exact hy b hb

lemma sorted_sortByScoreDesc (l : List NewsDoc) :
    (sortByScoreDesc l).Pairwise fun a b => scoreOf b ≤ scoreOf a := by
  induction l with
  | nil => simp [sortByScoreDesc]
  | cons x xs ih => exact sorted_insertByScoreDesc x ih

lemma filter_insertByScoreDesc (s : Int) (x : NewsDoc) (l : List NewsDoc) :
    (insertByScoreDesc x l).filter (fun n => decide (scoreOf n = s)) =
      if scoreOf x = s then x :: l.filter (fun n => decide (scoreOf n = s))
      else l.filter (fun n => decide (scoreOf n = s)) := by
  induction l with
  | nil =>
    by_cases hx : scoreOf x = s <;>
      simp [insertByScoreDesc, List.filter, hx]
  | cons y ys ih =>
    unfold insertByScoreDesc
    by_cases h : scoreOf y ≤ scoreOf x
    · rw [if_pos h]
      by_cases hx : scoreOf x = s <;>
        simp [List.filter_cons, hx]
    · rw [if_neg h]
      by_cases hx : scoreOf x = s
      · have hy : ¬ scoreOf y = s := by
          intro hys
          exact h (le_of_eq (hys.trans hx.symm))
        simp [List.filter_cons, hy, ih, hx]
      · by_cases hy : scoreOf y = s <;>
          simp [List.filter_cons, ih, hx, hy]

lemma mem_sortByScoreDesc {m : NewsDoc} {l : List NewsDoc} :
    m ∈ sortByScoreDesc l ↔ m ∈ l := by
  induction l with
  | nil => simp [sortByScoreDesc]
  | cons x xs ih =>
    unfold sortByScoreDesc
    rw [mem_insertByScoreDesc, List.mem_cons, ih]

lemma filter_sortByScoreDesc (s : Int) (l : List NewsDoc) :
    (sortByScoreDesc l).filter (fun n => decide (scoreOf n = s)) =
      l.filter (fun n => decide (scoreOf n = s)) := by
  induction l with
  | nil => rfl
  | cons x xs ih =>
    unfold sortByScoreDesc
    rw [filter_insertByScoreDesc]
    by_cases hx : scoreOf x = s <;>
      simp [List.filter_cons, hx, ih]

/-- A concrete window-filtered article of the demonstration department. -/
def demoDoc (t u : String) (s : Int) : NewsDoc :=
  { title := t
    url := u
    source := "Src"
    published_at := 0
    analysis :=
      { departamento := "Finanzas y ROI"
        resumen_ejecutivo := "r"
        accion_sugerida := "a"
        relevancia_score := s
        topics := []
        model := GEMINI_MODEL }
    is_relevant := some (decide (s ≥ 60)) }

/-- The spec's demonstration input: scores [40, 95, 95, 70], one department. -/
def demoArticles : List NewsDoc :=
  [demoDoc "n40" "u40" 40, demoDoc "a95" "u95a" 95,
   demoDoc "b95" "u95b" 95, demoDoc "c70" "u70" 70]

/-- C4 — digest composition.  (1) On the demonstration input at
minScore = 60 the digest is exactly [95, 95, 70] with the two 95-score
articles in input order, and the persisted (title, url) list matches that
order.  (2) In general the digest holds at most 10 articles, every article in
it is of the target department with score ≥ minScore, the digest is sorted
descending by score, and the sort is stable: for every score value the
articles at that score appear exactly as in the filtered input order. -/
theorem C4_digest_filter_sort_truncate :
    (generateDigest "Finanzas y ROI" 60 demoArticles =
        [demoDoc "a95" "u95a" 95, demoDoc "b95" "u95b" 95, demoDoc "c70" "u70" 70] ∧
      digestItems (generateDigest "Finanzas y ROI" 60 demoArticles) =
        [("a95", "u95a"), ("b95", "u95b"), ("c70", "u70")]) ∧
    (∀ (dept : String) (ms : Int) (news : List NewsDoc),
      (generateDigest dept ms news).length ≤ 10 ∧
      (generateDigest dept ms news).all
        (fun n => decide (n.analysis.departamento = dept ∧ ms ≤ scoreOf n)) = true ∧
      (generateDigest dept ms news).Pairwise (fun a b => scoreOf b ≤ scoreOf a) ∧
      ∀ s : Int,
        (sortByScoreDesc (digestFilter dept ms news)).filter
            (fun n => decide (scoreOf n = s)) =
          (digestFilter dept ms news).filter (fun n => decide (scoreOf n = s))) := by
  refine ⟨⟨by decide, by decide⟩, ?_⟩
  intro dept ms news
  refine ⟨List.length_take_le 10 _, ?_, ?_, fun s => filter_sortByScoreDesc s _⟩
  · rw [List.all_eq_true]
    intro n hn
    have hmem : n ∈ news.filter
        (fun n => decide (n.analysis.departamento = dept ∧ ms ≤ scoreOf n)) :=
      mem_sortByScoreDesc.mp (List.mem_of_mem_take hn)
    exact (List.mem_filter.mp hmem).2
  · exact (sorted_sortByScoreDesc (digestFilter dept ms news)).sublist
      (List.take_sublist 10 _)

/-- One fetched candidate item as the run loop sees it: the item, the name of
its source, and the outcome of `analyze_item` for it (`ok` with the parsed
`Analysis`, or `error` with the raised exception's message — covering model
failures and pydantic validation failures alike). -/
structure FetchedItem where
  item : Item
  source_name : String
  outcome : Except String Analysis

/-- `f.outcome` is a successful analysis. -/
def outcomeOk (f : FetchedItem) : Bool :=
  match f.outcome with
  | .ok _ => true
  | .error _ => false

/-- The Cloud Function loop stores an item iff its analysis succeeded with
`score >= MIN_SCORE` (gcp/main.py line 201). -/
def gcpStores (f : FetchedItem) : Bool :=
  match f.outcome with
  | .ok a => decide (MIN_SCORE ≤ a.score)
  | .error _ => false

/-- The counters the Streamlit run loop accumulates (app.py lines 352-357). -/
structure RunTotals where
  total_done : Nat
  analyzed : Nat
  added : Nat
  skipped_existing : Nat
  errors : Nat
  first_errors : List String
deriving Repr, DecidableEq

/-- The zero counters a run starts with (app.py lines 352-357). -/
def initTotals : RunTotals := ⟨0, 0, 0, 0, 0, []⟩

/-- The Streamlit "Run Pipeline" loop (app.py lines 360-392), with the items
fetched across all sources flattened into one list (the `total_done >=
max_total` cap is re-checked before every item in the source, so flattening
preserves its semantics).  Per item: cap check; skip (and count) items whose
URL already has a document — without analyzing; otherwise analyze, count
`analyzed`, upsert, count `added` if the upsert inserted; on an analysis
exception count `errors` and record up to 5 sample messages. -/
def appLoop (max_total : Nat) (now : Int) :
    RunTotals → Store → List FetchedItem → RunTotals × Store
  | t, store, [] => (t, store)
  | t, store, f :: rest =>
    if t.total_done ≥ max_total then (t, store)
    else
      let t1 : RunTotals := { t with total_done := t.total_done + 1 }
      if (lookupDoc store (sha256 f.item.url)).isSome then
        appLoop max_total now
          { t1 with skipped_existing := t1.skipped_existing + 1 } store rest
      else
        match f.outcome with
        | .ok a =>
          let t2 := { t1 with analyzed := t1.analyzed + 1 }
          let r := upsert_news store f.item a f.source_name now
          appLoop max_total now
            (if r.1 then { t2 with added := t2.added + 1 } else t2) r.2 rest
        | .error e =>
          let fe := if t1.first_errors.length < 5 then t1.first_errors ++ [e]
                    else t1.first_errors
          appLoop max_total now
            { t1 with errors := t1.errors + 1, first_errors := fe } store rest

/-- The counters of the Cloud Function run loop (gcp/main.py line 185):
no duplicate-skip counter exists in this variant. -/
structure GcpTotals where
  total_done : Nat
  analyzed : Nat
  added : Nat
  errors : Nat
deriving Repr, DecidableEq

/-- `added = analyzed = errors = total_done = 0` (gcp/main.py line 185). -/
def initGcpTotals : GcpTotals := ⟨0, 0, 0, 0⟩

/-- The Cloud Function run loop (gcp/main.py lines 187-205), flattened like
`appLoop`.  Per item: cap check; analyze (no duplicate pre-check), count
`analyzed`; only when `score >= MIN_SCORE` attempt the upsert and count
`added` if it inserted; on an exception count `errors` (no message kept). -/
def gcpLoop (max_total : Nat) (now : Int) :
    GcpTotals → Store → List FetchedItem → GcpTotals × Store
  | t, store, [] => (t, store)
  | t, store, f :: rest =>
    if t.total_done ≥ max_total then (t, store)
    else
      let t1 : GcpTotals := { t with total_done := t.total_done + 1 }
      match f.outcome with
      | .ok a =>
        let t2 := { t1 with analyzed := t1.analyzed + 1 }
        if a.score ≥ MIN_SCORE then
          let r := upsert_news_gcp store f.item a f.source_name now
          gcpLoop max_total now
            (if r.1 then { t2 with added := t2.added + 1 } else t2) r.2 rest
        else
          gcpLoop max_total now t2 store rest
      | .error _ =>
        gcpLoop max_total now { t1 with errors := t1.errors + 1 } store rest

lemma appLoop_fresh_ok (mt : Nat) (now : Int) :
    ∀ (items : List FetchedItem) (t : RunTotals) (store : Store),
      (∀ f ∈ items, lookupDoc store (sha256 f.item.url) = none) →
      (items.map fun f => sha256 f.item.url).Nodup →
      (∀ f ∈ items, outcomeOk f = true) →
      t.total_done + items.length ≤ mt →
      (appLoop mt now t store items).1 =
        { t with total_done := t.total_done + items.length,
                 analyzed := t.analyzed + items.length,
                 added := t.added + items.length } := by
  intro items
  induction items with
  | nil => intro t store _ _ _ _; simp [appLoop]
  | cons f rest ih =>
    intro t store hfresh hnodup hok hcap
    have hlt : ¬ t.total_done ≥ mt := by
      simp only [List.length_cons] at hcap; omega
    have hf0 : lookupDoc store (sha256 f.item.url) = none := hfresh f (by simp)
    have hokf : outcomeOk f = true := hok f (by simp)
    rcases ho : f.outcome with e | a
    · exact absurd hokf (by simp [outcomeOk, ho])
    · rw [appLoop, if_neg hlt, ho]
      simp only [hf0, Option.isSome_none, Bool.false_eq_true, if_false,
        upsert_news_fresh a f.source_name now hf0, if_true]
      rw [ih _ _ ?hfr ?hnd ?hko ?hcp]
      case hfr =>
        intro g hg
        have hgs : sha256 g.item.url ≠ sha256 f.item.url := by
          have hnin : sha256 f.item.url ∉ rest.map fun f => sha256 f.item.url := by
            simpa using (List.nodup_cons.mp hnodup).1
          intro he
          exact hnin (he ▸ List.mem_map_of_mem _ hg)
        simp only [lookupDoc, if_neg hgs]
        exact hfresh g (List.mem_cons_of_mem _ hg)
      case hnd => exact (List.nodup_cons.mp hnodup).2
      case hko => exact fun g hg => hok g (List.mem_cons_of_mem _ hg)
      case hcp => simp only [List.length_cons] at hcap; simpa using by omega
      simp only [RunTotals.mk.injEq, List.length_cons, and_true, true_and]
      omega

lemma gcpLoop_fresh_ok (mt : Nat) (now : Int) :
    ∀ (items : List FetchedItem) (t : GcpTotals) (store : Store),
      (∀ f ∈ items, lookupDoc store (sha256 f.item.url) = none) →
      (items.map fun f => sha256 f.item.url).Nodup →
      (∀ f ∈ items, outcomeOk f = true) →
      t.total_done + items.length ≤ mt →
      (gcpLoop mt now t store items).1 =
        { t with total_done := t.total_done + items.length,
                 analyzed := t.analyzed + items.length,
                 added := t.added + items.countP gcpStores } := by
  intro items
  induction items with
  | nil => intro t store _ _ _ _; simp [gcpLoop]
  | cons f rest ih =>
    intro t store hfresh hnodup hok hcap
    have hlt : ¬ t.total_done ≥ mt := by
      simp only [List.length_cons] at hcap; omega
    have hf0 : lookupDoc store (sha256 f.item.url) = none := hfresh f (by simp)
    have hokf : outcomeOk f = true := hok f (by simp)
    rcases ho : f.outcome with e | a
    · exact absurd hokf (by simp [outcomeOk, ho])
    · rw [gcpLoop, if_neg hlt, ho]
      have hcst : gcpStores f = decide (MIN_SCORE ≤ a.score) := by
        simp [gcpStores, ho]
      by_cases hsc : a.score ≥ MIN_SCORE
      · simp only [if_pos hsc, upsert_news_gcp_fresh a f.source_name now hf0, if_true]
        rw [ih _ _ ?hfr ?hnd ?hko ?hcp]
        case hfr =>
          intro g hg
          have hgs : sha256 g.item.url ≠ sha256 f.item.url := by
            have hnin : sha256 f.item.url ∉ rest.map fun f => sha256 f.item.url := by
              simpa using (List.nodup_cons.mp hnodup).1
            intro he
            exact hnin (he ▸ List.mem_map_of_mem _ hg)
          simp only [lookupDoc, if_neg hgs]
          exact hfresh g (List.mem_cons_of_mem _ hg)
        case hnd => exact (List.nodup_cons.mp hnodup).2
        case hko => exact fun g hg => hok g (List.mem_cons_of_mem _ hg)
        case hcp => simp only [List.length_cons] at hcap; simpa using by omega
        have hcv : gcpStores f = true := by rw [hcst]; simpa using hsc
        simp only [List.countP_cons, List.length_cons, hcv, if_true,
          GcpTotals.mk.injEq, and_true, true_and]
        omega
      · simp only [if_neg hsc]
        rw [ih _ _ ?hfr ?hnd ?hko ?hcp]
        case hfr => exact fun g hg => hfresh g (List.mem_cons_of_mem _ hg)
        case hnd => exact (List.nodup_cons.mp hnodup).2
        case hko => exact fun g hg => hok g (List.mem_cons_of_mem _ hg)
        case hcp => simp only [List.length_cons] at hcap; simpa using by omega
        have hcv : gcpStores f = false := by rw [hcst]; simpa using hsc
        simp only [List.countP_cons, List.length_cons, hcv, Bool.false_eq_true,
          if_false, GcpTotals.mk.injEq, and_true, true_and]
        omega

/-- An `analyze_item` call that did not raise. -/
def exceptOk (r : Except String Analysis) : Bool :=
  match r with
  | .ok _ => true
  | .error _ => false

/-- A successful analysis with score 90. -/
def highAnalysis : Analysis :=
  { titulo_mejorado := "T1", resumen := "R", accion := "A",
    departamento := "Finanzas y ROI", topics := [], score := 90 }

/-- A fresh item whose analysis succeeded with score 90. -/
def fetchedHigh : FetchedItem :=
  { item := { title := "t1", url := "https://example.com/hi", summary := "s" }
    source_name := "Src"
    outcome := .ok highAnalysis }

/-- A fresh item whose analysis succeeded with score 50 (below `MIN_SCORE`). -/
def fetchedLow : FetchedItem :=
  { item := { title := "t2", url := "https://example.com/lo", summary := "s" }
    source_name := "Src"
    outcome := .ok { titulo_mejorado := "T2", resumen := "R", accion := "A",
                     departamento := "Finanzas y ROI", topics := [], score := 50 } }

/-- C2 counterexample — the claim's "no further condition on the item's
score" fails on the Cloud Function run (gcp/main.py line 201): a run over one
fetched item whose URL is not in the store and whose analysis succeeded
(score 50) ends with analyzed = 1 but added = 0, so the analyzed item was not
stored and added ≠ analyzed. -/
theorem C2_counterexample_gcp_score_gate :
    lookupDoc [] (sha256 fetchedLow.item.url) = none ∧
    outcomeOk fetchedLow = true ∧
    (gcpLoop MAX_TOTAL 0 initGcpTotals [] [fetchedLow]).1.analyzed = 1 ∧
    (gcpLoop MAX_TOTAL 0 initGcpTotals [] [fetchedLow]).1.added = 0 := by
  refine ⟨rfl, rfl, by decide, by decide⟩

/-- C2 (amended) — in a run whose fetched items all have fresh, pairwise
distinct URLs, all analyses succeed, and the item count fits the run cap:
the Streamlit pipeline stores every analyzed item, so analyzed = added =
number of items with errors = 0 and nothing skipped; the Cloud Function
pipeline additionally requires `score >= MIN_SCORE` (70) before storing, so
its added counter equals the number of analyzed items with score ≥ 70. -/
theorem C2_analyzed_items_all_added (now : Int) (mt : Nat)
    (items : List FetchedItem) (store : Store)
    (hfresh : ∀ f ∈ items, lookupDoc store (sha256 f.item.url) = none)
    (hnodup : (items.map fun f => sha256 f.item.url).Nodup)
    (hok : ∀ f ∈ items, outcomeOk f = true)
    (hcap : items.length ≤ mt) :
    ((appLoop mt now initTotals store items).1.analyzed = items.length ∧
      (appLoop mt now initTotals store items).1.added = items.length ∧
      (appLoop mt now initTotals store items).1.errors = 0 ∧
      (appLoop mt now initTotals store items).1.skipped_existing = 0) ∧
    ((gcpLoop mt now initGcpTotals store items).1.analyzed = items.length ∧
      (gcpLoop mt now initGcpTotals store items).1.added = items.countP gcpStores ∧
      (gcpLoop mt now initGcpTotals store items).1.errors = 0) := by
  have ha := appLoop_fresh_ok mt now items initTotals store hfresh hnodup hok
    (by simpa [initTotals] using hcap)
  have hg := gcpLoop_fresh_ok mt now items initGcpTotals store hfresh hnodup hok
    (by simpa [initGcpTotals] using hcap)
  rw [ha, hg]
  simp [initTotals, initGcpTotals]

/-- Witness for C2 (amended): two fresh distinct-URL items, both analyses
succeeding (scores 90 and 50) — the Streamlit run reports
analyzed = 2, added = 2, errors = 0 (the spec's end-to-end scenario), while
the Cloud Function run adds only the score-90 item. -/
theorem C2_analyzed_items_all_added_witness :
    (appLoop 25 0 initTotals [] [fetchedHigh, fetchedLow]).1.analyzed = 2 ∧
    (appLoop 25 0 initTotals [] [fetchedHigh, fetchedLow]).1.added = 2 ∧
    (appLoop 25 0 initTotals [] [fetchedHigh, fetchedLow]).1.errors = 0 ∧
    (gcpLoop 25 0 initGcpTotals [] [fetchedHigh, fetchedLow]).1.added = 1 := by
  have h := C2_analyzed_items_all_added 0 25 [fetchedHigh, fetchedLow] []
    (by decide) (by decide) (by decide) (by decide)
  refine ⟨h.1.1, h.1.2.1, h.1.2.2.1, ?_⟩
  rw [h.2.2.1]
  decide

/-- The outcome `analyze_item` has on an item whose model reply carries
score 150: pydantic validation rejects it (see `mkAnalysis`). -/
def invalidScoreOutcome : Except String Analysis :=
  mkAnalysis "T3" "R" "A" "Finanzas y ROI" [] 150

/-- A fresh item whose analysis fails schema validation (score 150). -/
def fetchedBad : FetchedItem :=
  { item := { title := "t3", url := "https://example.com/bad", summary := "s" }
    source_name := "Src"
    outcome := invalidScoreOutcome }

/-- C7 — the `Analysis` score contract.  (1) Construction succeeds exactly
when 0 ≤ score ≤ 100; (2) scores 0 and 100 are accepted, −1 and 101 are
rejected; (3) a validation failure is an error for that item only, not the
run: a Streamlit run over a good item and an invalid-score item completes
with analyzed = 1, added = 1, errors = 1, and the single validation message
recorded — the good item is still stored and counted. -/
theorem C7_score_range_validation :
    (∀ (t r ac d : String) (tp : List String) (s : Int),
      exceptOk (mkAnalysis t r ac d tp s) = decide (0 ≤ s ∧ s ≤ 100)) ∧
    (exceptOk (mkAnalysis "T" "R" "A" "D" [] 0) = true ∧
      exceptOk (mkAnalysis "T" "R" "A" "D" [] 100) = true ∧
      exceptOk (mkAnalysis "T" "R" "A" "D" [] (-1)) = false ∧
      exceptOk (mkAnalysis "T" "R" "A" "D" [] 101) = false) ∧
    (appLoop 25 0 initTotals [] [fetchedHigh, fetchedBad]).1 =
      { total_done := 2, analyzed := 1, added := 1, skipped_existing := 0,
        errors := 1,
        first_errors := ["score: Input should be less than or equal to 100"] } := by
  refine ⟨?_, ⟨rfl, rfl, rfl, rfl⟩, by decide⟩
  intro t r ac d tp s
  unfold mkAnalysis
  split_ifs with h1 h2 <;> simp [exceptOk] <;> omega

/-- A concrete item for the C3 counterexample. -/
def c3Item : Item := { title := "t4", url := "https://example.com/c3", summary := "s" }

/-- A concrete valid analysis (score 80) for the C3 counterexample. -/
def c3Analysis : Analysis :=
  { titulo_mejorado := "T4", resumen := "R", accion := "A",
    departamento := "Finanzas y ROI", topics := [], score := 80 }

/-- C3 counterexample — the Cloud Function's `upsert_news` (gcp/main.py lines
103-116) writes no `is_relevant` key at all: after storing a fresh article
(score 80) through it, the stored document's `is_relevant` is absent
(`none`), so "this field is present on every stored Article" fails. -/
theorem C3_counterexample_gcp_missing_is_relevant :
    (lookupDoc (upsert_news_gcp [] c3Item c3Analysis "Src" 0).2
        (sha256 c3Item.url)).map NewsDoc.is_relevant = some none ∧
    ¬ ∃ b : Bool,
      (lookupDoc (upsert_news_gcp [] c3Item c3Analysis "Src" 0).2
          (sha256 c3Item.url)).map NewsDoc.is_relevant = some (some b) := by
  refine ⟨rfl, ?_⟩
  rintro ⟨b, hb⟩
  rw [show (lookupDoc (upsert_news_gcp [] c3Item c3Analysis "Src" 0).2
      (sha256 c3Item.url)).map NewsDoc.is_relevant = some none from rfl] at hb
  simp at hb

/-- C3 (amended) — every Article stored by the Streamlit `upsert_news`
carries `is_relevant = (score >= 60)`, whatever the score; the Cloud Function
variant stores the article without any `is_relevant` field. -/
theorem C3_is_relevant_derived (store : Store) (item : Item) (a : Analysis)
    (src : String) (now : Int)
    (h : lookupDoc store (sha256 item.url) = none) :
    (lookupDoc (upsert_news store item a src now).2 (sha256 item.url)).map
        NewsDoc.is_relevant = some (some (decide (a.score ≥ 60))) ∧
    (lookupDoc (upsert_news_gcp store item a src now).2 (sha256 item.url)).map
        NewsDoc.is_relevant = some none := by
  rw [upsert_news_fresh a src now h, upsert_news_gcp_fresh a src now h]
  constructor <;> simp [lookupDoc, appNewsDoc, gcpNewsDoc]

/-- Witness for C3 (amended) at a concrete low-score article (score 40):
stored by the Streamlit upsert with `is_relevant = false`. -/
theorem C3_is_relevant_derived_witness :
    (lookupDoc (upsert_news [] c3Item
        { titulo_mejorado := "T4", resumen := "R", accion := "A",
          departamento := "Finanzas y ROI", topics := [], score := 40 } "Src" 0).2
        (sha256 c3Item.url)).map NewsDoc.is_relevant = some (some false) := by
  have h := C3_is_relevant_derived [] c3Item
    { titulo_mejorado := "T4", resumen := "R", accion := "A",
      departamento := "Finanzas y ROI", topics := [], score := 40 } "Src" 0 rfl
  rw [h.1]
  decide

/-- C6 — department fallback.  After a fresh upsert through either variant:
if the analysis's department is not one of the five fixed departments, the
stored article's department is exactly "Innovación y Tendencias" (never the
invalid string); if it is in the enumeration, it is stored unchanged. -/
theorem C6_department_fallback (store : Store) (item : Item) (a : Analysis)
    (src : String) (now : Int)
    (h : lookupDoc store (sha256 item.url) = none) :
    (a.departamento ∉ DEPARTMENTS →
      (lookupDoc (upsert_news store item a src now).2 (sha256 item.url)).map
          (fun d => d.analysis.departamento) = some "Innovación y Tendencias" ∧
      (lookupDoc (upsert_news_gcp store item a src now).2 (sha256 item.url)).map
          (fun d => d.analysis.departamento) = some "Innovación y Tendencias") ∧
    (a.departamento ∈ DEPARTMENTS →
      (lookupDoc (upsert_news store item a src now).2 (sha256 item.url)).map
          (fun d => d.analysis.departamento) = some a.departamento ∧
      (lookupDoc (upsert_news_gcp store item a src now).2 (sha256 item.url)).map
          (fun d => d.analysis.departamento) = some a.departamento) := by
  rw [upsert_news_fresh a src now h, upsert_news_gcp_fresh a src now h]
  constructor
  · intro hnm
    constructor <;>
      simp [lookupDoc, appNewsDoc, gcpNewsDoc, deptOrDefault, hnm]
  · intro hm
    constructor <;>
      simp [lookupDoc, appNewsDoc, gcpNewsDoc, deptOrDefault, hm]

/-- Witness for C6: the invalid department "Marketing" is replaced by the
default, and the valid department "Finanzas y ROI" is stored unchanged. -/
theorem C6_department_fallback_witness :
    (lookupDoc (upsert_news [] c3Item
        { titulo_mejorado := "T", resumen := "R", accion := "A",
          departamento := "Marketing", topics := [], score := 80 } "Src" 0).2
        (sha256 c3Item.url)).map
        (fun d => d.analysis.departamento) = some "Innovación y Tendencias" ∧
    (lookupDoc (upsert_news [] c3Item c3Analysis "Src" 0).2
        (sha256 c3Item.url)).map
        (fun d => d.analysis.departamento) = some "Finanzas y ROI" := by
  constructor
  · exact ((C6_department_fallback [] c3Item
      { titulo_mejorado := "T", resumen := "R", accion := "A",
        departamento := "Marketing", topics := [], score := 80 } "Src" 0 rfl).1
      (by decide)).1
  · exact ((C6_department_fallback [] c3Item c3Analysis "Src" 0 rfl).2
      (by decide)).1

/-- The keys of the final Streamlit run-record write (app.py lines 394-403). -/
def appRunRecordFields : List String :=
  ["finished_at", "status", "sources", "analyzed", "added", "skipped_existing",
   "errors", "model"]

/-- The keys of the final Cloud Function run-record write (gcp/main.py lines
231-240). -/
def gcpRunRecordFields : List String :=
  ["finished_at", "status", "sources", "analyzed", "added", "errors", "digests",
   "min_score"]

/-- The keys of the Cloud Function's HTTP JSON summary (gcp/main.py line 242). -/
def gcpHttpSummaryFields : List String :=
  ["ok", "added", "analyzed", "errors", "digests"]

lemma appLoop_first_errors_le (mt : Nat) (now : Int) :
    ∀ (items : List FetchedItem) (t : RunTotals) (store : Store),
      t.first_errors.length ≤ 5 →
      (appLoop mt now t store items).1.first_errors.length ≤ 5 := by
  intro items
  induction items with
  | nil => intro t store h; simpa [appLoop] using h
  | cons f rest ih =>
    intro t store h
    rw [appLoop]
    by_cases hc : t.total_done ≥ mt
    · rw [if_pos hc]; simpa using h
    · rw [if_neg hc]
      by_cases he : (lookupDoc store (sha256 f.item.url)).isSome
      · simp only [he, if_true]
        exact ih _ _ (by simpa using h)
      · simp only [he, Bool.false_eq_true, if_false]
        rcases ho : f.outcome with e | a
        · simp only
          apply ih
          by_cases h5 : t.first_errors.length < 5
          · simp only [h5, if_true]
            simpa using by omega
          · simp only [h5, Bool.false_eq_true, if_false]
            simpa using h
        · simp only
          by_cases hr : (upsert_news store f.item a f.source_name now).1
          · simp only [hr, if_true]
            exact ih _ _ (by simpa using h)
          · simp only [hr, Bool.false_eq_true, if_false]
            exact ih _ _ (by simpa using h)

/-- C8 counterexample — the Cloud Function variant omits the skipped-as-
duplicates counter the claim requires of every completed run.  Its final
run-record write and its HTTP JSON summary carry no skipped key under either
spelling, and behaviourally a duplicate item is counted as analyzed (with
added = 0), never as skipped: the run over an item whose URL is already
stored reports analyzed = 1, errors = 0, and nothing records the duplicate. -/
theorem C8_counterexample_gcp_no_skipped_counter :
    ("skipped_existing" ∉ gcpRunRecordFields ∧ "skipped" ∉ gcpRunRecordFields ∧
      "skipped_existing" ∉ gcpHttpSummaryFields ∧ "skipped" ∉ gcpHttpSummaryFields) ∧
    ((gcpLoop MAX_TOTAL 0 initGcpTotals
        (upsert_news_gcp [] fetchedHigh.item highAnalysis "Src" 0).2
        [fetchedHigh]).1 =
      { total_done := 1, analyzed := 1, added := 0, errors := 0 }) := by
  refine ⟨⟨by decide, by decide, by decide, by decide⟩, by decide⟩

/-- C8 (amended) — the Streamlit run summary reports all four counters
(analyzed / added / skipped_existing / errors) and keeps at most five sample
error messages; the Cloud Function summary reports analyzed, added and
errors, but no duplicate-skip counter. -/
theorem C8_run_summary_counters :
    ("analyzed" ∈ appRunRecordFields ∧ "added" ∈ appRunRecordFields ∧
      "skipped_existing" ∈ appRunRecordFields ∧ "errors" ∈ appRunRecordFields) ∧
    (∀ (mt : Nat) (now : Int) (items : List FetchedItem) (store : Store),
      (appLoop mt now initTotals store items).1.first_errors.length ≤ 5) ∧
    ("analyzed" ∈ gcpRunRecordFields ∧ "added" ∈ gcpRunRecordFields ∧
      "errors" ∈ gcpRunRecordFields ∧ "skipped_existing" ∉ gcpRunRecordFields) := by
  refine ⟨⟨by decide, by decide, by decide, by decide⟩, ?_,
    ⟨by decide, by decide, by decide, by decide⟩⟩
  intro mt now items store
  exact appLoop_first_errors_le mt now items initTotals store (by decide)

/-- The HTTP response of `run_daily` (gcp/main.py lines 166-242):
`("Unauthorized", 401)`, `("Missing GOOGLE_API_KEY env var", 500)`, or the
200 JSON summary `{"ok", "added", "analyzed", "errors", "digests"}`. -/
inductive HttpResult where
  | unauthorized : HttpResult
  | missingApiKey : HttpResult
  | summary (added analyzed errors digests : Nat) : HttpResult
deriving Repr, DecidableEq

/-- `run_daily(request)` (gcp/main.py lines 166-242).  The auth gate is the
source's `if expected and got != expected: return ("Unauthorized", 401)` —
note the gate only fires when the configured `RUN_TOKEN` is non-empty.  Then
the missing-API-key check, then the run loop over the fetched items; the
digest phase always writes one digest per department, so the summary's
`digests` equals `len(DEPARTMENTS)` (digest contents are modelled by
`generateDigest`). -/
def run_daily (runToken xRunToken : String) (apiKey : Option String)
    (store : Store) (items : List FetchedItem) (now : Int) :
    HttpResult × Store :=
  if runToken ≠ "" ∧ xRunToken ≠ runToken then (.unauthorized, store)
  else
    match apiKey with
    | none => (.missingApiKey, store)
    | some _ =>
      let r := gcpLoop MAX_TOTAL now initGcpTotals store items
      (.summary r.1.added r.1.analyzed r.1.errors DEPARTMENTS.length, r.2)

/-- C9 counterexample — with an empty configured token (`RUN_TOKEN` unset,
the code's default) a request whose `X-Run-Token` header is "wrong" ≠ ""
is NOT rejected: `run_daily` runs the pipeline, returns the 200 summary and
stores the fetched article, contradicting "returns 401 and performs no
work" for every mismatching header. -/
theorem C9_counterexample_empty_token_bypasses_auth :
    ("wrong" : String) ≠ ("" : String) ∧
    (run_daily "" "wrong" (some "api-key") [] [fetchedHigh] 0).1 =
      .summary 1 1 0 5 ∧
    countKey (run_daily "" "wrong" (some "api-key") [] [fetchedHigh] 0).2
      (sha256 fetchedHigh.item.url) = 1 := by
  refine ⟨by decide, by decide, by decide⟩

/-- C9 (amended) — whenever the configured token is non-empty, every request
whose `X-Run-Token` header differs from it gets the Unauthorized (401)
response and the article store is returned unchanged: no ingestion, analysis
or storage work is reflected in the result. -/
theorem C9_auth_rejects_bad_token (runToken xRunToken : String)
    (apiKey : Option String) (store : Store) (items : List FetchedItem)
    (now : Int) (hconf : runToken ≠ "") (hbad : xRunToken ≠ runToken) :
    run_daily runToken xRunToken apiKey store items now =
      (.unauthorized, store) := by
  unfold run_daily
  rw [if_pos ⟨hconf, hbad⟩]

/-- Witness for C9 (amended) at a concrete configured token and header. -/
theorem C9_auth_rejects_bad_token_witness :
    run_daily "secret" "bad" (some "api-key") [] [fetchedHigh] 0 =
      (.unauthorized, []) :=
  C9_auth_rejects_bad_token "secret" "bad" (some "api-key") [] [fetchedHigh] 0
    (by decide) (by decide)

end AMCHub
